import Mathlib

/-!
Shallow embedding of the triangle-batching renderer of the 3D box demo
in `src/unnamed/part_001`: homogeneous vectors and matrices, the
render-state stack with its push and pop operations, triangle submission
with behind-camera and off-screen culling, axis-aligned bounding boxes
with union and intersection, and the sorting `flush` that submits the
pending batch as one draw call.

Machine floats are modelled as rationals; the infinities stored in the
empty and universal bounding boxes are modelled by the extended type
`EF`.  The fatal assertion in `pop` is modelled by returning `none`.
The single backend draw call issued by `flush` is modelled by an
optional `DrawCall` value recording the triangle data handed to the
backend.
-/

namespace Renderer

/-- Screen width in pixels: the constant 800 of part_001 line 31. -/
def WIDTH : ℚ := 800

/-- Screen height in pixels: the constant 600 of part_001 line 32. -/
def HEIGHT : ℚ := 600

/-- RGBA color, as in `SDL_Color`; each channel is an 8-bit value. -/
structure Color where
  r : ℕ
  g : ℕ
  b : ℕ
  a : ℕ
deriving DecidableEq

/-- The color constant named WHITE, value {255, 241, 232, 255} (part_001 line 50). -/
def WHITE : Color := ⟨255, 241, 232, 255⟩

/-- The color constant named BLACK, value {0, 0, 0, 255} (part_001 line 43). -/
def BLACK : Color := ⟨0, 0, 0, 255⟩

/-- Homogeneous 4-component vector (part_001 lines 209-211). -/
structure Vector where
  x : ℚ
  y : ℚ
  z : ℚ
  w : ℚ
deriving DecidableEq

/-- Dot product of two 4-vectors (part_001 lines 264-266). -/
def dot (lhs rhs : Vector) : ℚ :=
  lhs.x * rhs.x + lhs.y * rhs.y + lhs.z * rhs.z + lhs.w * rhs.w

/-- Componentwise minimum of two vectors, `minPairwise` (part_001 lines 276-279). -/
def minPairwise (lhs rhs : Vector) : Vector :=
  ⟨min lhs.x rhs.x, min lhs.y rhs.y, min lhs.z rhs.z, min lhs.w rhs.w⟩

/-- Componentwise maximum of two vectors, `maxPairwise` (part_001 lines 281-284). -/
def maxPairwise (lhs rhs : Vector) : Vector :=
  ⟨max lhs.x rhs.x, max lhs.y rhs.y, max lhs.z rhs.z, max lhs.w rhs.w⟩

/-- 4-by-4 matrix stored as four row vectors (part_001 lines 290-296). -/
structure Matrix where
  x : Vector
  y : Vector
  z : Vector
  w : Vector
deriving DecidableEq

/-- Matrix-vector product: the dot of each row with the vector
(part_001 lines 354-356). -/
def mulVec (lhs : Matrix) (rhs : Vector) : Vector :=
  ⟨dot lhs.x rhs, dot lhs.y rhs, dot lhs.z rhs, dot lhs.w rhs⟩

/-- The identity matrix constant (part_001 lines 376-381). -/
def IDENTITY : Matrix :=
  ⟨⟨1, 0, 0, 0⟩, ⟨0, 1, 0, 0⟩, ⟨0, 0, 1, 0⟩, ⟨0, 0, 0, 1⟩⟩

/-- Current transform and draw colors (part_001 lines 463-467). -/
structure RenderState where
  transform : Matrix
  fillColor : Color
  strokeColor : Color
deriving DecidableEq

/-- Screen-space vertex: position, modulating color and normalized
texture coordinates (part_001 lines 481-485). -/
structure Vertex where
  x : ℚ
  y : ℚ
  z : ℚ
  color : Color
  u : ℚ
  v : ℚ
deriving DecidableEq

/-- A triangle is exactly three vertices (part_001 lines 487-489). -/
structure Triangle where
  v0 : Vertex
  v1 : Vertex
  v2 : Vertex
deriving DecidableEq

/-- The mutable global state of the renderer gathered into one record:
the current `RenderState` (part_001 line 469), the saved-state stack
(line 470; the head of the list is the most recently pushed entry, i.e.
the back of the vector), the pending triangle batch (line 528) and the
reverse-sort flag (line 529). -/
structure GfxState where
  state : RenderState
  stack : List RenderState
  triangles : List Triangle
  reverseSortTriangles : Bool
deriving DecidableEq

/-- The push operation (part_001 line 472): copy the current state onto
the stack. -/
def push (g : GfxState) : GfxState :=
  { g with stack := g.state :: g.stack }

/-- The pop operation (part_001 lines 473-477): assert that the stack is
non-empty (`assertThat(stack.size())`, part_001 lines 24-28, a fatal
panic that terminates the process otherwise, modelled by `none`), then
restore the top entry as the current state and remove it from the
stack. -/
def pop (g : GfxState) : Option GfxState :=
  match g.stack with
  | [] => none
  | s :: rest => some { g with state := s, stack := rest }

/-- A machine-float value that may be one of the infinities stored in
`AABB_BOTTOM` and `AABB_TOP`: negative infinity, a finite value, or
positive infinity. -/
inductive EF where
  | ninf : EF
  | fin : ℚ → EF
  | pinf : EF
deriving DecidableEq

namespace EF

/-- The strict comparison on extended values: the IEEE ordering of
non-NaN floats including the two infinities. -/
def lt : EF → EF → Bool
  | ninf, ninf => false
  | ninf, _ => true
  | fin _, ninf => false
  | fin a, fin b => decide (a < b)
  | fin _, pinf => true
  | pinf, _ => false

/-- The behavior of `std::min(a, b)`: `b < a ? b : a`. -/
def minE (a b : EF) : EF := if lt b a then b else a

/-- The behavior of `std::max(a, b)`: `a < b ? b : a`. -/
def maxE (a b : EF) : EF := if lt a b then b else a

end EF

/-- A 4-vector over extended values, as stored in bounding boxes. -/
structure EVector where
  x : EF
  y : EF
  z : EF
  w : EF
deriving DecidableEq

/-- `minPairwise` acting on extended vectors (part_001 lines 276-279). -/
def minPairwiseE (lhs rhs : EVector) : EVector :=
  ⟨EF.minE lhs.x rhs.x, EF.minE lhs.y rhs.y, EF.minE lhs.z rhs.z, EF.minE lhs.w rhs.w⟩

/-- `maxPairwise` acting on extended vectors (part_001 lines 281-284). -/
def maxPairwiseE (lhs rhs : EVector) : EVector :=
  ⟨EF.maxE lhs.x rhs.x, EF.maxE lhs.y rhs.y, EF.maxE lhs.z rhs.z, EF.maxE lhs.w rhs.w⟩

/-- Embed a finite vector into extended components. -/
def Vector.toE (v : Vector) : EVector :=
  ⟨EF.fin v.x, EF.fin v.y, EF.fin v.z, EF.fin v.w⟩

/-- Axis-aligned bounding box, defined by its min and max corners
(part_001 lines 502-504). -/
structure AABB where
  min : EVector
  max : EVector
deriving DecidableEq

/-- The empty box `AABB_BOTTOM`: min corner all positive infinity, max
corner all negative infinity (part_001 lines 508-511). -/
def AABB_BOTTOM : AABB :=
  ⟨⟨EF.pinf, EF.pinf, EF.pinf, EF.pinf⟩, ⟨EF.ninf, EF.ninf, EF.ninf, EF.ninf⟩⟩

/-- The universal box `AABB_TOP`: min corner all negative infinity, max
corner all positive infinity (part_001 lines 515-518). -/
def AABB_TOP : AABB :=
  ⟨⟨EF.ninf, EF.ninf, EF.ninf, EF.ninf⟩, ⟨EF.pinf, EF.pinf, EF.pinf, EF.pinf⟩⟩

/-- AABB union, the `operator|` of part_001 lines 520-522. -/
def AABB.union (lhs rhs : AABB) : AABB :=
  ⟨minPairwiseE lhs.min rhs.min, maxPairwiseE lhs.max rhs.max⟩

/-- AABB intersection, the `operator&` of part_001 lines 524-526. -/
def AABB.inter (lhs rhs : AABB) : AABB :=
  ⟨maxPairwiseE lhs.min rhs.min, minPairwiseE lhs.max rhs.max⟩

/-- The perspective divide (part_001 lines 531-536): divide x, y and z
by w and set w to 1. -/
def perspectiveDivide (v : Vector) : Vector :=
  ⟨v.x / v.w, v.y / v.w, v.z / v.w, 1⟩

/-- The screen-space tail of `addTriangle` (part_001 lines 549-567): the
four all-outside-one-boundary culling tests on the already
perspective-divided vertices, followed by appending the triangle to the
pending batch and returning its bounding box. -/
def addTriangleScreen (g : GfxState) (color : Color) (a b c : Vector)
    (u1 v1 u2 v2 u3 v3 : ℚ) : AABB × GfxState :=
  if a.x < 0 ∧ b.x < 0 ∧ c.x < 0 then (AABB_BOTTOM, g)
  else if a.x > WIDTH ∧ b.x > WIDTH ∧ c.x > WIDTH then (AABB_BOTTOM, g)
  else if a.y < 0 ∧ b.y < 0 ∧ c.y < 0 then (AABB_BOTTOM, g)
  else if a.y > HEIGHT ∧ b.y > HEIGHT ∧ c.y > HEIGHT then (AABB_BOTTOM, g)
  else
    (⟨(minPairwise a (minPairwise b c)).toE, (maxPairwise a (maxPairwise b c)).toE⟩,
      { g with triangles := g.triangles ++
          [⟨⟨a.x, a.y, a.z, color, u1, v1⟩, ⟨b.x, b.y, b.z, color, u2, v2⟩,
            ⟨c.x, c.y, c.z, color, u3, v3⟩⟩] })

/-- Triangle submission (part_001 lines 538-567): transform the three
input vertices by the current transform, cull the whole triangle if any
transformed vertex has w less than or equal to 0, otherwise
perspective-divide all three vertices and run the screen-space
culling/append tail. -/
def addTriangle (g : GfxState) (color : Color) (ia ib ic : Vector)
    (u1 v1 u2 v2 u3 v3 : ℚ) : AABB × GfxState :=
  if (mulVec g.state.transform ia).w ≤ 0 ∨ (mulVec g.state.transform ib).w ≤ 0 ∨
      (mulVec g.state.transform ic).w ≤ 0 then
    (AABB_BOTTOM, g)
  else
    addTriangleScreen g color (perspectiveDivide (mulVec g.state.transform ia))
      (perspectiveDivide (mulVec g.state.transform ib))
      (perspectiveDivide (mulVec g.state.transform ic)) u1 v1 u2 v2 u3 v3

/-- The perspective divide guarded against a zero divisor: `none`
exactly when the division by w would divide by zero. -/
def perspectiveDivideChecked (v : Vector) : Option Vector :=
  if v.w = 0 then none else some (perspectiveDivide v)

/-- `addTriangle` with every perspective divide routed through the
zero-divisor guard `perspectiveDivideChecked`; `none` would signal that
a divide by zero was reached. -/
def addTriangleChecked (g : GfxState) (color : Color) (ia ib ic : Vector)
    (u1 v1 u2 v2 u3 v3 : ℚ) : Option (AABB × GfxState) :=
  if (mulVec g.state.transform ia).w ≤ 0 ∨ (mulVec g.state.transform ib).w ≤ 0 ∨
      (mulVec g.state.transform ic).w ≤ 0 then
    some (AABB_BOTTOM, g)
  else
    match perspectiveDivideChecked (mulVec g.state.transform ia),
        perspectiveDivideChecked (mulVec g.state.transform ib),
        perspectiveDivideChecked (mulVec g.state.transform ic) with
    | some a, some b, some c => some (addTriangleScreen g color a b c u1 v1 u2 v2 u3 v3)
    | _, _, _ => none

/-- The per-triangle vertex comparator used by `flush` (part_001 lines
629-632): strict lexicographic comparison by (z, y, x). -/
def vertexLt (lhs rhs : Vertex) : Bool :=
  decide (lhs.z < rhs.z) ||
    (decide (lhs.z = rhs.z) && (decide (lhs.y < rhs.y) ||
      (decide (lhs.y = rhs.y) && decide (lhs.x < rhs.x))))

/-- Sorting the three vertices of a triangle with `vertexLt`: the
`std::sort` over the vertex array of part_001 lines 628-632, written as
an unrolled insertion sort on three elements. -/
def Triangle.sortVerts (t : Triangle) : Triangle :=
  if vertexLt t.v1 t.v0 then
    if vertexLt t.v2 t.v1 then ⟨t.v2, t.v1, t.v0⟩
    else if vertexLt t.v2 t.v0 then ⟨t.v1, t.v2, t.v0⟩
    else ⟨t.v1, t.v0, t.v2⟩
  else
    if vertexLt t.v2 t.v0 then ⟨t.v2, t.v0, t.v1⟩
    else if vertexLt t.v2 t.v1 then ⟨t.v0, t.v2, t.v1⟩
    else ⟨t.v0, t.v1, t.v2⟩

/-- The whole-batch triangle comparator used by `flush` (part_001 lines
642-659): compare the three z coordinates in vertex-index order, then
the three y coordinates, then the three x coordinates. -/
def triangleLt (l r : Triangle) : Bool :=
  if l.v0.z ≠ r.v0.z then decide (l.v0.z < r.v0.z)
  else if l.v1.z ≠ r.v1.z then decide (l.v1.z < r.v1.z)
  else if l.v2.z ≠ r.v2.z then decide (l.v2.z < r.v2.z)
  else if l.v0.y ≠ r.v0.y then decide (l.v0.y < r.v0.y)
  else if l.v1.y ≠ r.v1.y then decide (l.v1.y < r.v1.y)
  else if l.v2.y ≠ r.v2.y then decide (l.v2.y < r.v2.y)
  else if l.v0.x ≠ r.v0.x then decide (l.v0.x < r.v0.x)
  else if l.v1.x ≠ r.v1.x then decide (l.v1.x < r.v1.x)
  else if l.v2.x ≠ r.v2.x then decide (l.v2.x < r.v2.x)
  else false

/-- The non-strict precedence induced by the `std::sort` comparator
`triangleLt`: `a` may precede `b` exactly when `triangleLt b a` is
false. -/
def triangleOrd (a b : Triangle) : Prop := triangleLt b a = false

instance : DecidableRel triangleOrd := fun a b =>
  inferInstanceAs (Decidable (triangleLt b a = false))

/-- One batched backend draw call, as handed to `SDL_RenderGeometryRaw`
(part_001 lines 663-671): the full ordered triangle list whose
interleaved vertex data (positions, colors, uv) is submitted. -/
structure DrawCall where
  tris : List Triangle
deriving DecidableEq

/-- The final triangle order produced by `flush` on a non-empty batch:
each triangle's vertices sorted with `vertexLt`, the batch sorted with
`triangleLt`, and the whole sequence reversed when the reverse-sort
flag is set (part_001 lines 625-662). -/
def flushResult (g : GfxState) : List Triangle :=
  if g.reverseSortTriangles then
    (List.insertionSort triangleOrd (g.triangles.map Triangle.sortVerts)).reverse
  else
    List.insertionSort triangleOrd (g.triangles.map Triangle.sortVerts)

/-- The flush operation (part_001 lines 621-678): if the batch is empty,
return 0 triangles, issue no draw call and leave the state untouched;
otherwise sort each triangle's vertices, sort the batch, reverse it when
the reverse-sort flag is set, submit everything as one draw call, clear
the batch, and return the number of triangles drawn. -/
def flush (g : GfxState) : ℕ × Option DrawCall × GfxState :=
  if g.triangles = [] then (0, none, g)
  else (g.triangles.length, some ⟨flushResult g⟩, { g with triangles := [] })

/-- The initial global state of the program: identity transform, white
fill, black stroke, empty stack, empty batch, reverse-sort off
(part_001 lines 469-470, 528-529). -/
def g0 : GfxState :=
  ⟨⟨IDENTITY, WHITE, BLACK⟩, [], [], false⟩

/-- Lexicographic sort key of a vertex: (z, y, x) with z primary. -/
def vKey (v : Vertex) : Lex (ℚ × Lex (ℚ × ℚ)) :=
  toLex (v.z, toLex (v.y, v.x))

/-- 9-component lexicographic sort key of a triangle:
(z0, z1, z2, y0, y1, y2, x0, x1, x2) in vertex-index order. -/
def tKey (t : Triangle) :
    Lex (ℚ × Lex (ℚ × Lex (ℚ × Lex (ℚ × Lex (ℚ ×
      Lex (ℚ × Lex (ℚ × Lex (ℚ × ℚ)))))))) :=
  toLex (t.v0.z, toLex (t.v1.z, toLex (t.v2.z, toLex (t.v0.y, toLex (t.v1.y,
    toLex (t.v2.y, toLex (t.v0.x, toLex (t.v1.x, t.v2.x))))))))

/-- The state after submitting the spec's concrete scenario triangle —
screen coordinates (100,100,5), (200,100,5), (150,50,5) — under the
identity transform. -/
def scenarioState : GfxState :=
  (addTriangle g0 WHITE ⟨100, 100, 5, 1⟩ ⟨200, 100, 5, 1⟩ ⟨150, 50, 5, 1⟩ 0 0 0 0 0 0).2

/-- The scenario triangle after the per-triangle vertex sort: all z are
equal, so the vertices are ordered by y then x. -/
def scenarioSorted : Triangle :=
  ⟨⟨150, 50, 5, WHITE, 0, 0⟩, ⟨100, 100, 5, WHITE, 0, 0⟩, ⟨200, 100, 5, WHITE, 0, 0⟩⟩

/-- A screen-space triangle at depth 3, vertices already in (z,y,x)
order. -/
def triNear : Triangle :=
  ⟨⟨0, 0, 3, WHITE, 0, 0⟩, ⟨1, 0, 3, WHITE, 0, 0⟩, ⟨0, 1, 3, WHITE, 0, 0⟩⟩

/-- A screen-space triangle at depth 9, vertices already in (z,y,x)
order. -/
def triFar : Triangle :=
  ⟨⟨0, 0, 9, WHITE, 0, 0⟩, ⟨1, 0, 9, WHITE, 0, 0⟩, ⟨0, 1, 9, WHITE, 0, 0⟩⟩

/-- A state whose pending batch holds the two triangles above, deeper
one first, with the reverse-sort flag off. -/
def batchState : GfxState :=
  ⟨⟨IDENTITY, WHITE, BLACK⟩, [], [triFar, triNear], false⟩

/-! Helper lemmas on the extended values -/

lemma EF.minE_pinf_left (x : EF) : EF.minE EF.pinf x = x := by
  cases x <;> rfl

lemma EF.minE_pinf_right (x : EF) : EF.minE x EF.pinf = x := by
  cases x <;> rfl

lemma EF.maxE_ninf_left (x : EF) : EF.maxE EF.ninf x = x := by
  cases x <;> rfl

lemma EF.maxE_ninf_right (x : EF) : EF.maxE x EF.ninf = x := by
  cases x <;> rfl

/-! Theorems -/

/-- C7: For every current `RenderState` and stack contents (and whatever
the batch and flag hold), executing `push` immediately followed by `pop`
succeeds and leaves the entire renderer state, in particular the current
`RenderState` and the saved-state stack, exactly as before the push. -/
theorem push_pop_roundtrip (g : GfxState) : pop (push g) = some g := rfl

/-- C8: `pop` on a non-empty stack restores the most recently pushed
state as the current state and removes it from the stack; `pop` on an
empty stack hits the fatal assertion (modelled by `none`, never a
silent continuation), and that error branch is unreachable whenever the
stack is non-empty. -/
theorem pop_spec (g : GfxState) :
    (∀ s rest, g.stack = s :: rest →
      pop g = some { g with state := s, stack := rest }) ∧
    (g.stack = [] → pop g = none) := by
  obtain ⟨st, stk, tris, rev⟩ := g
  constructor
  · rintro s rest rfl
    rfl
  · rintro rfl
    rfl

/-- Witness for C8: popping a one-entry stack restores the saved state
and empties the stack; popping the initial (empty-stack) state hits the
fatal-assertion branch. -/
theorem pop_spec_witness :
    pop ⟨⟨IDENTITY, WHITE, BLACK⟩, [⟨IDENTITY, BLACK, WHITE⟩], [], false⟩ =
      some { (⟨⟨IDENTITY, WHITE, BLACK⟩, [⟨IDENTITY, BLACK, WHITE⟩], [], false⟩ : GfxState)
        with state := ⟨IDENTITY, BLACK, WHITE⟩, stack := [] } ∧
    pop g0 = none :=
  ⟨(pop_spec _).1 _ _ rfl, (pop_spec g0).2 rfl⟩

/-- C9: `AABB_BOTTOM` (the empty box) is a two-sided identity element
for AABB union, and `AABB_TOP` (the universal box) is a two-sided
identity element for AABB intersection. -/
theorem aabb_identities (a : AABB) :
    (AABB.union AABB_BOTTOM a = a ∧ AABB.union a AABB_BOTTOM = a) ∧
    (AABB.inter AABB_TOP a = a ∧ AABB.inter a AABB_TOP = a) := by
  obtain ⟨⟨x1, y1, z1, w1⟩, ⟨x2, y2, z2, w2⟩⟩ := a
  simp [AABB.union, AABB.inter, AABB_BOTTOM, AABB_TOP, minPairwiseE, maxPairwiseE,
    EF.minE_pinf_left, EF.minE_pinf_right, EF.maxE_ninf_left, EF.maxE_ninf_right]

/-! The comparators agree with the lexicographic keys -/

lemma vertexLt_iff (l r : Vertex) : vertexLt l r = true ↔ vKey l < vKey r := by
  simp [vertexLt, vKey, Prod.Lex.lt_iff]

lemma vlt_le {a b : Vertex} (h : vertexLt a b = true) : vKey a ≤ vKey b :=
  ((vertexLt_iff a b).1 h).le

lemma vnlt_le {a b : Vertex} (h : ¬ vertexLt a b = true) : vKey b ≤ vKey a :=
  not_lt.1 fun hlt => h ((vertexLt_iff a b).2 hlt)

lemma lex_lt_step {β : Type} [LinearOrder β] {p q : ℚ} {x y : β} {b : Bool}
    (h : b = true ↔ x < y) :
    ((if p ≠ q then decide (p < q) else b) = true) ↔ toLex (p, x) < toLex (q, y) := by
  rcases eq_or_ne p q with he | hne
  · subst he
    simpa [Prod.Lex.lt_iff] using h
  · simp [hne, Prod.Lex.lt_iff]

lemma lex_lt_base {p q : ℚ} :
    ((if p ≠ q then decide (p < q) else false) = true) ↔ p < q := by
  rcases eq_or_ne p q with he | hne
  · subst he
    simp
  · simp [hne]

lemma triangleLt_iff (l r : Triangle) : triangleLt l r = true ↔ tKey l < tKey r := by
  unfold triangleLt tKey
  exact lex_lt_step (lex_lt_step (lex_lt_step (lex_lt_step (lex_lt_step (lex_lt_step
    (lex_lt_step (lex_lt_step lex_lt_base)))))))

lemma triangleOrd_iff (a b : Triangle) : triangleOrd a b ↔ tKey a ≤ tKey b := by
  unfold triangleOrd
  rw [← not_lt, ← triangleLt_iff]
  simp

instance : IsTotal Triangle triangleOrd :=
  ⟨fun a b => by
    rw [triangleOrd_iff, triangleOrd_iff]
    exact le_total _ _⟩

instance : IsTrans Triangle triangleOrd :=
  ⟨fun a b c hab hbc => by
    rw [triangleOrd_iff] at *
    exact le_trans hab hbc⟩

/-- The per-triangle vertex sort leaves the three vertices in ascending
(z, y, x) lexicographic order. -/
lemma sortVerts_sorted (t : Triangle) :
    vKey t.sortVerts.v0 ≤ vKey t.sortVerts.v1 ∧
      vKey t.sortVerts.v1 ≤ vKey t.sortVerts.v2 := by
  unfold Triangle.sortVerts
  split_ifs with h1 h2 h3 h4 h5
  · exact ⟨vlt_le h2, vlt_le h1⟩
  · exact ⟨vnlt_le h2, vlt_le h3⟩
  · exact ⟨vlt_le h1, vnlt_le h3⟩
  · exact ⟨vlt_le h4, vnlt_le h1⟩
  · exact ⟨vnlt_le h4, vlt_le h5⟩
  · exact ⟨vnlt_le h1, vnlt_le h5⟩

/-- The per-triangle vertex sort permutes the three vertices. -/
lemma sortVerts_perm (t : Triangle) :
    [t.sortVerts.v0, t.sortVerts.v1, t.sortVerts.v2].Perm [t.v0, t.v1, t.v2] := by
  unfold Triangle.sortVerts
  split_ifs
  · exact List.reverse_perm [t.v0, t.v1, t.v2]
  · exact (List.Perm.cons _ (List.Perm.swap _ _ _)).trans (List.Perm.swap _ _ _)
  · exact List.Perm.swap _ _ _
  · exact (List.Perm.swap _ _ _).trans (List.Perm.cons _ (List.Perm.swap _ _ _))
  · exact List.Perm.cons _ (List.Perm.swap _ _ _)
  · exact List.Perm.refl _

/-- On a non-empty batch, `flush` does not take the early-return branch. -/
lemma flush_ne (g : GfxState) (h : g.triangles ≠ []) :
    flush g = (g.triangles.length, some ⟨flushResult g⟩, { g with triangles := [] }) := by
  simp [flush, h]

/-- C5: for every triangle in the post-flush draw call, the triangle's
three vertices have been reordered into ascending lexicographic
(z, y, x) order — z primary, y secondary, x tertiary — and the drawn
triangle list is a permutation of the batch with each triangle's
vertices so sorted. -/
theorem flush_sortsVertices (g : GfxState) (n : ℕ) (dc : DrawCall) (g' : GfxState)
    (h : flush g = (n, some dc, g')) :
    (∀ t ∈ dc.tris, vKey t.v0 ≤ vKey t.v1 ∧ vKey t.v1 ≤ vKey t.v2) ∧
    dc.tris.Perm (g.triangles.map Triangle.sortVerts) := by
  have hne : g.triangles ≠ [] := by
    intro he
    simp [flush, he] at h
  rw [flush_ne g hne] at h
  have hdc : dc = ⟨flushResult g⟩ := by
    have := congrArg (fun p => p.2.1) h
    simpa using this.symm
  subst hdc
  have hperm : List.Perm (flushResult g) (g.triangles.map Triangle.sortVerts) := by
    cases hrev : g.reverseSortTriangles
    · simp only [flushResult, hrev, Bool.false_eq_true, if_false]
      exact List.perm_insertionSort _ _
    · simp only [flushResult, hrev, if_true]
      exact (List.reverse_perm _).trans (List.perm_insertionSort _ _)
  refine ⟨?_, hperm⟩
  intro t ht
  have ht' : t ∈ g.triangles.map Triangle.sortVerts := hperm.mem_iff.1 ht
  obtain ⟨t₀, _, rfl⟩ := List.mem_map.1 ht'
  exact sortVerts_sorted t₀

/-- Witness for C5: the spec's concrete scenario. Submitting the single
screen-space triangle (100,100,5), (200,100,5), (150,50,5) under the
identity transform and flushing returns 1, issues one draw call whose
single triangle has its vertices reordered to (150,50,5), (100,100,5),
(200,100,5), and those vertices are ascending by (z, y, x). -/
theorem flush_sortsVertices_witness :
    flush scenarioState =
      (1, some ⟨[scenarioSorted]⟩, { scenarioState with triangles := [] }) ∧
    ∀ t ∈ (⟨[scenarioSorted]⟩ : DrawCall).tris,
      vKey t.v0 ≤ vKey t.v1 ∧ vKey t.v1 ≤ vKey t.v2 := by
  have h : flush scenarioState =
      (1, some ⟨[scenarioSorted]⟩, { scenarioState with triangles := [] }) := by
    norm_num [scenarioState, scenarioSorted, flush, flushResult, Triangle.sortVerts, vertexLt,
      addTriangle, addTriangleScreen, perspectiveDivide, mulVec, dot, g0, IDENTITY,
      WIDTH, HEIGHT, List.insertionSort, List.orderedInsert, List.cons_ne_nil]
  exact ⟨h, (flush_sortsVertices _ _ _ _ h).1⟩

/-- C6: `flush` sorts the whole batch (after its per-triangle vertex
sort) ascending lexicographically by the 9-component key
(z0, z1, z2, y0, y1, y2, x0, x1, x2) built in vertex-index order, and
the draw call receives that sorted sequence reversed exactly when the
reverse-sort flag is set. -/
theorem flush_sortsBatch (g : GfxState) (n : ℕ) (dc : DrawCall) (g' : GfxState)
    (h : flush g = (n, some dc, g')) :
    ∃ s : List Triangle,
      s.Perm (g.triangles.map Triangle.sortVerts) ∧
      s.Sorted triangleOrd ∧
      (∀ a b, triangleOrd a b ↔ tKey a ≤ tKey b) ∧
      dc.tris = if g.reverseSortTriangles then s.reverse else s := by
  have hne : g.triangles ≠ [] := by
    intro he
    simp [flush, he] at h
  rw [flush_ne g hne] at h
  have hdc : dc = ⟨flushResult g⟩ := by
    have := congrArg (fun p => p.2.1) h
    simpa using this.symm
  subst hdc
  refine ⟨List.insertionSort triangleOrd (g.triangles.map Triangle.sortVerts),
    List.perm_insertionSort _ _, List.sorted_insertionSort _ _, triangleOrd_iff, ?_⟩
  cases hrev : g.reverseSortTriangles <;> simp [flushResult, hrev]

/-- Witness for C6: flushing a batch holding a depth-9 triangle before a
depth-3 triangle (flag off) returns 2 and submits them reordered
ascending by the 9-component key, with no reversal. -/
theorem flush_sortsBatch_witness :
    flush batchState =
      (2, some ⟨[triNear, triFar]⟩, { batchState with triangles := [] }) ∧
    ∃ s : List Triangle,
      s.Perm (batchState.triangles.map Triangle.sortVerts) ∧
      s.Sorted triangleOrd ∧
      (∀ a b, triangleOrd a b ↔ tKey a ≤ tKey b) ∧
      (⟨[triNear, triFar]⟩ : DrawCall).tris =
        if batchState.reverseSortTriangles then s.reverse else s := by
  have h : flush batchState =
      (2, some ⟨[triNear, triFar]⟩, { batchState with triangles := [] }) := by
    norm_num [batchState, triNear, triFar, flush, flushResult, Triangle.sortVerts, vertexLt,
      triangleOrd, triangleLt, List.insertionSort, List.orderedInsert, List.cons_ne_nil]
  exact ⟨h, flush_sortsBatch _ _ _ _ h⟩

/-- C1: flushing an empty pending batch returns 0 triangles, issues no
backend draw call, and leaves the whole renderer state unchanged. -/
theorem flush_empty (g : GfxState) (h : g.triangles = []) :
    flush g = (0, none, g) := by
  simp [flush, h]

/-- Witness for C1: flushing the initial state (whose batch is empty)
returns 0, no draw call, and the unchanged state. -/
theorem flush_empty_witness : flush g0 = (0, none, g0) :=
  flush_empty g0 rfl

/-- C3: whenever at least one of the three transformed vertices has
homogeneous coordinate w less than or equal to 0, the whole triangle is
dropped: the submission returns the empty box `AABB_BOTTOM` and leaves
the renderer state (in particular the pending batch) unchanged, so the
triangle can never appear in a post-flush draw call. -/
theorem addTriangle_cullBehindCamera (g : GfxState) (color : Color) (ia ib ic : Vector)
    (u1 v1 u2 v2 u3 v3 : ℚ)
    (h : (mulVec g.state.transform ia).w ≤ 0 ∨ (mulVec g.state.transform ib).w ≤ 0 ∨
      (mulVec g.state.transform ic).w ≤ 0) :
    addTriangle g color ia ib ic u1 v1 u2 v2 u3 v3 = (AABB_BOTTOM, g) := by
  simp [addTriangle, h]

/-- Witness for C3: a triangle whose first vertex has w = 0 under the
identity transform is dropped with the empty box and no state change. -/
theorem addTriangle_cullBehindCamera_witness :
    addTriangle g0 WHITE ⟨1, 2, 3, 0⟩ ⟨4, 5, 6, 1⟩ ⟨7, 8, 9, 1⟩ 0 0 0 0 0 0 =
      (AABB_BOTTOM, g0) :=
  addTriangle_cullBehindCamera g0 WHITE _ _ _ 0 0 0 0 0 0
    (by norm_num [g0, mulVec, dot, IDENTITY])

set_option maxHeartbeats 1000000

/-- C4: for a submitted triangle whose three transformed vertices all
have w greater than 0, writing a, b, c for the perspective-divided
vertices, the submission is rejected (empty box, state unchanged)
exactly when all three vertices lie beyond one common screen boundary
(all x less than 0, all x greater than WIDTH, all y less than 0, or all
y greater than HEIGHT); otherwise the triangle is appended to the
pending batch with exactly the unclipped coordinates a, b, c. -/
theorem addTriangle_screenCull (g : GfxState) (color : Color) (ia ib ic : Vector)
    (u1 v1 u2 v2 u3 v3 : ℚ) (a b c : Vector)
    (ha : a = perspectiveDivide (mulVec g.state.transform ia))
    (hb : b = perspectiveDivide (mulVec g.state.transform ib))
    (hc : c = perspectiveDivide (mulVec g.state.transform ic))
    (hw : 0 < (mulVec g.state.transform ia).w ∧ 0 < (mulVec g.state.transform ib).w ∧
      0 < (mulVec g.state.transform ic).w) :
    addTriangle g color ia ib ic u1 v1 u2 v2 u3 v3 =
      if (a.x < 0 ∧ b.x < 0 ∧ c.x < 0) ∨ (a.x > WIDTH ∧ b.x > WIDTH ∧ c.x > WIDTH) ∨
          (a.y < 0 ∧ b.y < 0 ∧ c.y < 0) ∨ (a.y > HEIGHT ∧ b.y > HEIGHT ∧ c.y > HEIGHT) then
        (AABB_BOTTOM, g)
      else
        (⟨(minPairwise a (minPairwise b c)).toE, (maxPairwise a (maxPairwise b c)).toE⟩,
          { g with triangles := g.triangles ++
              [⟨⟨a.x, a.y, a.z, color, u1, v1⟩, ⟨b.x, b.y, b.z, color, u2, v2⟩,
                ⟨c.x, c.y, c.z, color, u3, v3⟩⟩] }) := by
  subst ha hb hc
  unfold addTriangle
  rw [if_neg (by push_neg; exact ⟨hw.1, hw.2.1, hw.2.2⟩)]
  unfold addTriangleScreen
  by_cases h1 : (perspectiveDivide (mulVec g.state.transform ia)).x < 0 ∧
      (perspectiveDivide (mulVec g.state.transform ib)).x < 0 ∧
      (perspectiveDivide (mulVec g.state.transform ic)).x < 0
  · rw [if_pos h1, if_pos (Or.inl h1)]
  rw [if_neg h1]
  by_cases h2 : (perspectiveDivide (mulVec g.state.transform ia)).x > WIDTH ∧
      (perspectiveDivide (mulVec g.state.transform ib)).x > WIDTH ∧
      (perspectiveDivide (mulVec g.state.transform ic)).x > WIDTH
  · rw [if_pos h2, if_pos (Or.inr (Or.inl h2))]
  rw [if_neg h2]
  by_cases h3 : (perspectiveDivide (mulVec g.state.transform ia)).y < 0 ∧
      (perspectiveDivide (mulVec g.state.transform ib)).y < 0 ∧
      (perspectiveDivide (mulVec g.state.transform ic)).y < 0
  · rw [if_pos h3, if_pos (Or.inr (Or.inr (Or.inl h3)))]
  rw [if_neg h3]
  by_cases h4 : (perspectiveDivide (mulVec g.state.transform ia)).y > HEIGHT ∧
      (perspectiveDivide (mulVec g.state.transform ib)).y > HEIGHT ∧
      (perspectiveDivide (mulVec g.state.transform ic)).y > HEIGHT
  · rw [if_pos h4, if_pos (Or.inr (Or.inr (Or.inr h4)))]
  rw [if_neg h4, if_neg (by tauto)]

/-- Witness for C4: under the identity transform, a triangle entirely at
x less than 0 is culled with no state change, while a triangle
straddling x = 0 (one vertex at x = 5) is appended unclipped. -/
theorem addTriangle_screenCull_witness :
    addTriangle g0 WHITE ⟨-10, 5, 0, 1⟩ ⟨-20, 7, 0, 1⟩ ⟨-1, 9, 0, 1⟩ 0 0 0 0 0 0 =
      (AABB_BOTTOM, g0) ∧
    (addTriangle g0 WHITE ⟨5, 5, 0, 1⟩ ⟨-20, 7, 0, 1⟩ ⟨-1, 9, 0, 1⟩ 0 0 0 0 0 0).2.triangles =
      [⟨⟨5, 5, 0, WHITE, 0, 0⟩, ⟨-20, 7, 0, WHITE, 0, 0⟩, ⟨-1, 9, 0, WHITE, 0, 0⟩⟩] := by
  constructor
  · have h := addTriangle_screenCull g0 WHITE ⟨-10, 5, 0, 1⟩ ⟨-20, 7, 0, 1⟩ ⟨-1, 9, 0, 1⟩
      0 0 0 0 0 0 _ _ _ rfl rfl rfl (by norm_num [g0, mulVec, dot, IDENTITY])
    rw [h]
    norm_num [g0, perspectiveDivide, mulVec, dot, IDENTITY, WIDTH, HEIGHT]
  · have h := addTriangle_screenCull g0 WHITE ⟨5, 5, 0, 1⟩ ⟨-20, 7, 0, 1⟩ ⟨-1, 9, 0, 1⟩
      0 0 0 0 0 0 _ _ _ rfl rfl rfl (by norm_num [g0, mulVec, dot, IDENTITY])
    rw [h]
    norm_num [g0, perspectiveDivide, mulVec, dot, IDENTITY, WIDTH, HEIGHT, WHITE]

/-- Counterexample to C2 as stated: a huge picture-frame triangle under
the identity transform whose three post-divide vertices all lie outside
the screen (one above, one to the left, one to the right), with no
single boundary having all three vertices on its outer side, is NOT
culled: submission appends it to the pending batch. -/
theorem pictureFrame_counterexample :
    (perspectiveDivide (mulVec g0.state.transform ⟨400, -10000, 0, 1⟩)).y < 0 ∧
    (perspectiveDivide (mulVec g0.state.transform ⟨-10000, 10000, 0, 1⟩)).x < 0 ∧
    (perspectiveDivide (mulVec g0.state.transform ⟨10000, 10000, 0, 1⟩)).x > WIDTH ∧
    (addTriangle g0 WHITE ⟨400, -10000, 0, 1⟩ ⟨-10000, 10000, 0, 1⟩ ⟨10000, 10000, 0, 1⟩
        0 0 0 0 0 0).2.triangles =
      [⟨⟨400, -10000, 0, WHITE, 0, 0⟩, ⟨-10000, 10000, 0, WHITE, 0, 0⟩,
        ⟨10000, 10000, 0, WHITE, 0, 0⟩⟩] := by
  norm_num [addTriangle, addTriangleScreen, perspectiveDivide, mulVec, dot, g0, IDENTITY,
    WIDTH, HEIGHT]

/-- C2 amended: a triangle whose three transformed vertices all have w
greater than 0 and whose three perspective-divided vertices all lie
outside the screen, but with no single boundary (x less than 0, x
greater than WIDTH, y less than 0, y greater than HEIGHT) having all
three vertices on its outer side — the picture-frame configuration — is
NOT culled by triangle submission: it is appended, unclipped, to the
pending batch. -/
theorem pictureFrame_retained (g : GfxState) (color : Color) (ia ib ic : Vector)
    (u1 v1 u2 v2 u3 v3 : ℚ) (a b c : Vector)
    (ha : a = perspectiveDivide (mulVec g.state.transform ia))
    (hb : b = perspectiveDivide (mulVec g.state.transform ib))
    (hc : c = perspectiveDivide (mulVec g.state.transform ic))
    (hw : 0 < (mulVec g.state.transform ia).w ∧ 0 < (mulVec g.state.transform ib).w ∧
      0 < (mulVec g.state.transform ic).w)
    (houtside : (a.x < 0 ∨ a.x > WIDTH ∨ a.y < 0 ∨ a.y > HEIGHT) ∧
      (b.x < 0 ∨ b.x > WIDTH ∨ b.y < 0 ∨ b.y > HEIGHT) ∧
      (c.x < 0 ∨ c.x > WIDTH ∨ c.y < 0 ∨ c.y > HEIGHT))
    (hframe : ¬((a.x < 0 ∧ b.x < 0 ∧ c.x < 0) ∨ (a.x > WIDTH ∧ b.x > WIDTH ∧ c.x > WIDTH) ∨
      (a.y < 0 ∧ b.y < 0 ∧ c.y < 0) ∨ (a.y > HEIGHT ∧ b.y > HEIGHT ∧ c.y > HEIGHT))) :
    (addTriangle g color ia ib ic u1 v1 u2 v2 u3 v3).2.triangles =
      g.triangles ++ [⟨⟨a.x, a.y, a.z, color, u1, v1⟩, ⟨b.x, b.y, b.z, color, u2, v2⟩,
        ⟨c.x, c.y, c.z, color, u3, v3⟩⟩] := by
  subst ha hb hc
  unfold addTriangle
  rw [if_neg (by push_neg; exact ⟨hw.1, hw.2.1, hw.2.2⟩)]
  unfold addTriangleScreen
  rw [if_neg fun hh => hframe (Or.inl hh),
    if_neg fun hh => hframe (Or.inr (Or.inl hh)),
    if_neg fun hh => hframe (Or.inr (Or.inr (Or.inl hh))),
    if_neg fun hh => hframe (Or.inr (Or.inr (Or.inr hh)))]

/-- Witness for the amended C2: the concrete picture-frame triangle is
appended to the (initially empty) pending batch. -/
theorem pictureFrame_retained_witness :
    (addTriangle g0 WHITE ⟨400, -10000, 0, 1⟩ ⟨-10000, 10000, 0, 1⟩ ⟨10000, 10000, 0, 1⟩
        0 0 0 0 0 0).2.triangles =
      [⟨⟨400, -10000, 0, WHITE, 0, 0⟩, ⟨-10000, 10000, 0, WHITE, 0, 0⟩,
        ⟨10000, 10000, 0, WHITE, 0, 0⟩⟩] := by
  have h := pictureFrame_retained g0 WHITE ⟨400, -10000, 0, 1⟩ ⟨-10000, 10000, 0, 1⟩
    ⟨10000, 10000, 0, 1⟩ 0 0 0 0 0 0 _ _ _ rfl rfl rfl
    (by norm_num [g0, mulVec, dot, IDENTITY])
    (by norm_num [g0, perspectiveDivide, mulVec, dot, IDENTITY, WIDTH, HEIGHT])
    (by norm_num [g0, perspectiveDivide, mulVec, dot, IDENTITY, WIDTH, HEIGHT])
  rw [h]
  norm_num [g0, perspectiveDivide, mulVec, dot, IDENTITY]

/-- C10: routing every perspective divide of triangle submission through
the zero-divisor guard never hits the guard: for all inputs and every
current transform, the checked submission succeeds and agrees with
`addTriangle`, because the w-greater-than-0 check strictly precedes the
divides, so no divide in `perspectiveDivide` ever has a zero divisor. -/
theorem addTriangleChecked_eq (g : GfxState) (color : Color) (ia ib ic : Vector)
    (u1 v1 u2 v2 u3 v3 : ℚ) :
    addTriangleChecked g color ia ib ic u1 v1 u2 v2 u3 v3 =
      some (addTriangle g color ia ib ic u1 v1 u2 v2 u3 v3) := by
  unfold addTriangleChecked addTriangle
  by_cases h : (mulVec g.state.transform ia).w ≤ 0 ∨ (mulVec g.state.transform ib).w ≤ 0 ∨
      (mulVec g.state.transform ic).w ≤ 0
  · rw [if_pos h, if_pos h]
  · rw [if_neg h, if_neg h]
    push_neg at h
    unfold perspectiveDivideChecked
    rw [if_neg (ne_of_gt h.1), if_neg (ne_of_gt h.2.1), if_neg (ne_of_gt h.2.2)]

end Renderer
